import Mathlib

/-!
Verification of the `ddb` datastore client (`src/db.rs`).

The development shallowly embeds the wire schema of the external
`google_datastore1` collaborator (keys, entities, mutations, commit /
lookup / query requests and responses), the `Error` taxonomy of `db.rs`,
and the six CRUD primitives of `DatastoreClient` (`insert`, `upsert`,
`update`, `get`, `list`, `delete`).  The transport collaborator is passed
explicitly as a record of functions, and every primitive additionally
returns the list of requests it handed to the transport, so that claims
about "no request was issued" are statable.

The `convert` codec module (`to_datastore_value` / `from_datastore_entity`)
is not part of `src/`; it is modelled from the spec (§4.2 ValueCodec) over
a closed type of application values.
-/

namespace Ddb

/-- Wire model: `google_datastore1::PathElement`.  `id` is never set by
this client, so its payload type is irrelevant. -/
structure PathElement where
  kind : Option String
  name : Option String
  id : Option Int
deriving Repr, DecidableEq

/-- Wire model: `google_datastore1::Key`.  `partition_id` is never set by
this client; its payload is modelled as `Unit`. -/
structure DsKey where
  path : Option (List PathElement)
  partition_id : Option Unit
deriving Repr, DecidableEq

mutual

/-- Wire model: `google_datastore1::Value`, a property value as a bag of
optional variant fields (the client only ever reads `entity_value`).  A
`double_value` is carried by its 64-bit IEEE-754 bit pattern: the client
and codec transport it verbatim and never interpret it numerically. -/
inductive DsValue : Type where
  | mk (null_value : Option Bool) (boolean_value : Option Bool)
       (integer_value : Option Int) (double_value : Option Nat)
       (string_value : Option String)
       (timestamp_value : Option String) (array_value : Option (List DsValue))
       (entity_value : Option DsEntity) : DsValue

/-- Wire model: `google_datastore1::Entity`: an optional property map
(field name to property value) together with an optional key. -/
inductive DsEntity : Type where
  | mk (properties : Option (List (String × DsValue))) (key : Option DsKey) : DsEntity

end

/-- Projection: the `entity_value` field of a wire value. -/
def DsValue.entity_value : DsValue → Option DsEntity
  | .mk _ _ _ _ _ _ _ e => e

/-- Projection: the `array_value` field of a wire value. -/
def DsValue.array_value : DsValue → Option (List DsValue)
  | .mk _ _ _ _ _ _ a _ => a

/-- Projection: the `properties` field of a wire entity. -/
def DsEntity.properties : DsEntity → Option (List (String × DsValue))
  | .mk p _ => p

/-- Projection: the `key` field of a wire entity. -/
def DsEntity.key : DsEntity → Option DsKey
  | .mk _ k => k

/-- Modelled from the spec: the closed set of supported application values
handled by the `convert` codec (ValueCodec, §4.2), which is not under
`src/`: null, booleans, integers, floating-point values, strings,
timestamps, ordered sequences and nested string-keyed records.  A
floating-point value is represented by its 64-bit IEEE-754 bit pattern
(`bits`); the codec shuttles the pattern verbatim and never interprets it
numerically, and value equality is structural equality of the pattern. -/
inductive AppValue : Type where
  | vNull : AppValue
  | vBool (b : Bool) : AppValue
  | vInt (i : Int) : AppValue
  | vDouble (bits : Nat) : AppValue
  | vStr (s : String) : AppValue
  | vTime (t : String) : AppValue
  | vList (xs : List AppValue) : AppValue
  | vMap (fields : List (String × AppValue)) : AppValue

mutual

/-- Modelled from the spec: the value-level encoding rule of ValueCodec
`encode` (§4.2): every supported application value maps to a property
value with exactly one variant field set. -/
def encodeValue : AppValue → DsValue
  | .vNull => .mk (some true) none none none none none none none
  | .vBool b => .mk none (some b) none none none none none none
  | .vInt i => .mk none none (some i) none none none none none
  | .vDouble bits => .mk none none none (some bits) none none none none
  | .vStr s => .mk none none none none (some s) none none none
  | .vTime t => .mk none none none none none (some t) none none
  | .vList xs => .mk none none none none none none (some (encodeList xs)) none
  | .vMap fs => .mk none none none none none none none
      (some (.mk (some (encodeFields fs)) none))

/-- Modelled from the spec: element-wise encoding of a sequence into a
property list. -/
def encodeList : List AppValue → List DsValue
  | [] => []
  | x :: xs => encodeValue x :: encodeList xs

/-- Modelled from the spec: field-wise encoding of a record into a
property map, preserving field names and order. -/
def encodeFields : List (String × AppValue) → List (String × DsValue)
  | [] => []
  | (k, x) :: fs => (k, encodeValue x) :: encodeFields fs

end

/-- Modelled from the spec: `convert::to_datastore_value` (ValueCodec
`encode`), as consumed by `db.rs` through `Option`: serialization of a
supported application value always yields a wire value. -/
def to_datastore_value (v : AppValue) : Option DsValue :=
  some (encodeValue v)

mutual

/-- Modelled from the spec: ValueCodec `decode` on a single property
value.  Exactly one variant field must be set; anything else is a decode
failure (`none`). -/
def decodeValue : DsValue → Option AppValue
  | .mk (some _) none none none none none none none => some .vNull
  | .mk none (some b) none none none none none none => some (.vBool b)
  | .mk none none (some i) none none none none none => some (.vInt i)
  | .mk none none none (some bits) none none none none => some (.vDouble bits)
  | .mk none none none none (some s) none none none => some (.vStr s)
  | .mk none none none none none (some t) none none => some (.vTime t)
  | .mk none none none none none none (some xs) none =>
    (decodeList xs).map .vList
  | .mk none none none none none none none (some (.mk (some fs) _)) =>
    (decodeFields fs).map .vMap
  | _ => none

/-- Modelled from the spec: element-wise decoding of a property list;
fails if any element fails. -/
def decodeList : List DsValue → Option (List AppValue)
  | [] => some []
  | x :: xs =>
    match decodeValue x, decodeList xs with
    | some v, some vs => some (v :: vs)
    | _, _ => none

/-- Modelled from the spec: field-wise decoding of a property map; fails
if any field value fails. -/
def decodeFields : List (String × DsValue) → Option (List (String × AppValue))
  | [] => some []
  | (k, x) :: fs =>
    match decodeValue x, decodeFields fs with
    | some v, some vs => some ((k, v) :: vs)
    | _, _ => none

end

/-- Modelled from the spec: `convert::from_datastore_entity` (ValueCodec
`decode` at the document root): decode a wire entity's property map back
into a record-shaped application value. -/
def from_datastore_entity (e : DsEntity) : Option AppValue :=
  match e with
  | .mk (some fs) _ => (decodeFields fs).map .vMap
  | .mk none _ => none

/-- Wire model: the external `google_datastore1::Error` (transport-level
failure).  The client treats it as opaque; a few representative
constructors stand in for the library's variants. -/
inductive GError : Type where
  | HttpError (msg : String)
  | BadRequest (msg : String)
  | Failure (code : Nat) (msg : String)
deriving Repr, DecidableEq

/-- The error taxonomy of `db.rs` (`pub enum Error`): `Serialization`,
`Deserialization`, a verbatim-wrapped transport failure
`DatabaseResponse`, and `NoPayload`. -/
inductive Error : Type where
  | Serialization (msg : String)
  | Deserialization (msg : String)
  | DatabaseResponse (e : GError)
  | NoPayload
deriving Repr, DecidableEq

/-- Wire model: `google_datastore1::Mutation`, a mutation record whose
fields each optionally carry one operation. -/
structure Mutation where
  insert : Option DsEntity
  delete : Option DsKey
  update : Option DsEntity
  base_version : Option Int
  upsert : Option DsEntity

/-- Wire model: `google_datastore1::CommitRequest`. -/
structure CommitRequest where
  transaction : Option String
  mutations : Option (List Mutation)
  mode : Option String

/-- Wire model: `google_datastore1::CommitResponse`; the client ignores
its contents. -/
structure CommitResponse where
  index_updates : Option Int
  mutation_results : Option (List DsKey)

/-- Wire model: `google_datastore1::LookupRequest`. -/
structure LookupRequest where
  keys : Option (List DsKey)
  read_options : Option Unit

/-- Wire model: `google_datastore1::EntityResult`. -/
structure EntityResult where
  entity : Option DsEntity
  cursor : Option String
  version : Option String

/-- Wire model: `google_datastore1::LookupResponse` (fields used by the
client: `found`). -/
structure LookupResponse where
  found : Option (List EntityResult)
  missing : Option (List EntityResult)
  deferred : Option (List DsKey)

/-- Wire model: `google_datastore1::KindExpression`. -/
structure KindExpression where
  name : Option String

/-- Wire model: `google_datastore1::Query` (the client only ever sets
`kind`; every other field is built as `None`). -/
structure Query where
  start_cursor : Option String
  kind : Option (List KindExpression)
  projection : Option Unit
  distinct_on : Option Unit
  filter : Option Unit
  limit : Option Int
  offset : Option Int
  end_cursor : Option String
  order : Option Unit

/-- Wire model: `google_datastore1::RunQueryRequest`. -/
structure RunQueryRequest where
  query : Option Query
  partition_id : Option Unit
  gql_query : Option Unit
  read_options : Option Unit

/-- Wire model: `google_datastore1::QueryResultBatch` (fields used by the
client: `entity_results`). -/
structure QueryResultBatch where
  entity_results : Option (List EntityResult)
  more_results : Option String
  end_cursor : Option String

/-- Wire model: `google_datastore1::RunQueryResponse`. -/
structure RunQueryResponse where
  batch : Option QueryResultBatch
  query : Option Query

/-- A request handed to the Transport collaborator by some primitive:
commit-mutation, lookup-by-key, or query-by-kind. -/
inductive Request : Type where
  | commit (req : CommitRequest)
  | lookup (req : LookupRequest)
  | runQuery (req : RunQueryRequest)

/-- The Transport collaborator: executes one request against a project
and returns one typed response or a transport-level error (the
`.doit()` calls of the `google_datastore1` hub). -/
structure Transport where
  commit : CommitRequest → String → Except GError CommitResponse
  lookup : LookupRequest → String → Except GError LookupResponse
  run_query : RunQueryRequest → String → Except GError RunQueryResponse

/-- The `EntityKey` trait of `db.rs`: a type-level kind string and an
instance-level name string, passed as an explicit dictionary. -/
structure EntityKey (T : Type) where
  entity_kind_key : String
  entity_name_key : T → String

/-- The `Serialize` bound of `db.rs`, as the client consumes it: the
generic `convert::to_datastore_value` specialised to `T`. -/
structure SerializeDict (T : Type) where
  to_datastore_value : T → Option DsValue

/-- The `DeserializeOwned` bound of `db.rs`, as the client consumes it:
the generic `convert::from_datastore_entity` specialised to `T`. -/
structure DeserializeDict (T : Type) where
  from_datastore_entity : DsEntity → Option T

/-- The codec dictionary for the spec-modelled supported values. -/
def appSerialize : SerializeDict AppValue :=
  { to_datastore_value := to_datastore_value }

/-- The decoding dictionary for the spec-modelled supported values. -/
def appDeserialize : DeserializeDict AppValue :=
  { from_datastore_entity := from_datastore_entity }

/-- `DatastoreClient` of `db.rs`: the state a primitive reads is the
project id (the hub handle is the Transport collaborator, passed per
call). -/
structure DatastoreClient where
  project_id : String

/-- `DatastoreClient::insert`.  Encodes the value, requires a map-shaped
root (`entity_value` with `properties`), builds one commit request with a
single insert mutation, and wraps any transport error verbatim.  Also
returns the requests issued to the transport. -/
def DatastoreClient.insert {T : Type} (self : DatastoreClient) (tr : Transport)
    (ser : SerializeDict T) (ek : EntityKey T) (value : T) :
    Except Error Unit × List Request :=
  let kind_key := ek.entity_kind_key
  let name_key := ek.entity_name_key value
  match ((ser.to_datastore_value value).bind DsValue.entity_value).bind DsEntity.properties with
  | none => (.error (.Serialization "expecting struct/map like input"), [])
  | some properties =>
    let entity : DsEntity := .mk (some properties)
      (some { path := some [{ kind := some kind_key, name := some name_key, id := none }],
              partition_id := none })
    let req : CommitRequest :=
      { transaction := none,
        mutations := some [{ insert := some entity, delete := none, update := none,
                             base_version := none, upsert := none }],
        mode := some "NON_TRANSACTIONAL" }
    let result := tr.commit req self.project_id
    ((match result with
      | .ok _ => .ok ()
      | .error e => .error (.DatabaseResponse e)), [.commit req])

/-- `DatastoreClient::upsert`: as `insert`, but the single mutation
carries the entity in its `upsert` field. -/
def DatastoreClient.upsert {T : Type} (self : DatastoreClient) (tr : Transport)
    (ser : SerializeDict T) (ek : EntityKey T) (value : T) :
    Except Error Unit × List Request :=
  let kind_key := ek.entity_kind_key
  let name_key := ek.entity_name_key value
  match ((ser.to_datastore_value value).bind DsValue.entity_value).bind DsEntity.properties with
  | none => (.error (.Serialization "expecting struct/map like input"), [])
  | some properties =>
    let entity : DsEntity := .mk (some properties)
      (some { path := some [{ kind := some kind_key, name := some name_key, id := none }],
              partition_id := none })
    let req : CommitRequest :=
      { transaction := none,
        mutations := some [{ insert := none, delete := none, update := none,
                             base_version := none, upsert := some entity }],
        mode := some "NON_TRANSACTIONAL" }
    let result := tr.commit req self.project_id
    ((match result with
      | .ok _ => .ok ()
      | .error e => .error (.DatabaseResponse e)), [.commit req])

/-- `DatastoreClient::update`: as `insert`, but the single mutation
carries the entity in its `update` field. -/
def DatastoreClient.update {T : Type} (self : DatastoreClient) (tr : Transport)
    (ser : SerializeDict T) (ek : EntityKey T) (value : T) :
    Except Error Unit × List Request :=
  let kind_key := ek.entity_kind_key
  let name_key := ek.entity_name_key value
  match ((ser.to_datastore_value value).bind DsValue.entity_value).bind DsEntity.properties with
  | none => (.error (.Serialization "expecting struct/map like input"), [])
  | some properties =>
    let entity : DsEntity := .mk (some properties)
      (some { path := some [{ kind := some kind_key, name := some name_key, id := none }],
              partition_id := none })
    let req : CommitRequest :=
      { transaction := none,
        mutations := some [{ insert := none, delete := none, update := some entity,
                             base_version := none, upsert := none }],
        mode := some "NON_TRANSACTIONAL" }
    let result := tr.commit req self.project_id
    ((match result with
      | .ok _ => .ok ()
      | .error e => .error (.DatabaseResponse e)), [.commit req])

/-- `DatastoreClient::get`: one lookup request keyed by the type-level
kind and the caller-supplied name; the first found entity (if any) is
decoded.  A success response with no usable entity is `NoPayload`; a
decode failure is `Deserialization`. -/
def DatastoreClient.get {T : Type} (self : DatastoreClient) (tr : Transport)
    (dser : DeserializeDict T) (ek : EntityKey T) (name_key : String) :
    Except Error T × List Request :=
  let kind_key := ek.entity_kind_key
  let req : LookupRequest :=
    { keys := some [{ path := some [{ kind := some kind_key, name := some name_key, id := none }],
                      partition_id := none }],
      read_options := none }
  let result := tr.lookup req self.project_id
  ((match result with
    | .ok lookup_response =>
      match (lookup_response.found.bind List.head?).bind EntityResult.entity with
      | none => .error .NoPayload
      | some payload =>
        match dser.from_datastore_entity payload with
        | none => .error (.Deserialization "conversion or parser error")
        | some v => .ok v
    | .error e => .error (.DatabaseResponse e)), [.lookup req])

/-- `DatastoreClient::list`: one run-query request for all entities of
the type-level kind; entities that are absent or fail to decode are
silently dropped by the two `filter_map` passes, while a response with no
batch or no entity results at all is `NoPayload`. -/
def DatastoreClient.list {T : Type} (self : DatastoreClient) (tr : Transport)
    (dser : DeserializeDict T) (ek : EntityKey T) :
    Except Error (List T) × List Request :=
  let kind_key := ek.entity_kind_key
  let query : RunQueryRequest :=
    { query := some { start_cursor := none,
                      kind := some [{ name := some kind_key }],
                      projection := none, distinct_on := none, filter := none,
                      limit := none, offset := none, end_cursor := none, order := none },
      partition_id := none, gql_query := none, read_options := none }
  let result := tr.run_query query self.project_id
  ((match result with
    | .ok query_response =>
      match (query_response.batch.bind QueryResultBatch.entity_results).map
          (fun entities =>
            (entities.filterMap EntityResult.entity).filterMap dser.from_datastore_entity) with
      | none => .error .NoPayload
      | some payload => .ok payload
    | .error e => .error (.DatabaseResponse e)), [.runQuery query])

/-- `DatastoreClient::delete`: one commit request with a single delete
mutation carrying the key built from the type-level kind and the
caller-supplied name. -/
def DatastoreClient.delete {T : Type} (self : DatastoreClient) (tr : Transport)
    (ek : EntityKey T) (name_key : String) :
    Except Error Unit × List Request :=
  let kind_key := ek.entity_kind_key
  let entity_key : DsKey :=
    { path := some [{ kind := some kind_key, name := some name_key, id := none }],
      partition_id := none }
  let req : CommitRequest :=
    { transaction := none,
      mutations := some [{ insert := none, delete := some entity_key, update := none,
                           base_version := none, upsert := none }],
      mode := some "NON_TRANSACTIONAL" }
  let result := tr.commit req self.project_id
  ((match result with
    | .ok _ => .ok ()
    | .error e => .error (.DatabaseResponse e)), [.commit req])

/-- The single-element key every operation of this client builds: one
path element carrying the kind and the name, no numeric id, no partition
and no ancestors. -/
def keyFor (kind_key name_key : String) : DsKey :=
  { path := some [{ kind := some kind_key, name := some name_key, id := none }],
    partition_id := none }

/-- The commit envelope every mutation of this client builds: no
transaction, exactly one mutation record, mode `NON_TRANSACTIONAL`. -/
def singleMutationCommit (m : Mutation) : CommitRequest :=
  { transaction := none, mutations := some [m], mode := some "NON_TRANSACTIONAL" }

/-- A transport whose every call reports the same transport-level
error. -/
def failTransport (e : GError) : Transport :=
  { commit := fun _ _ => .error e,
    lookup := fun _ _ => .error e,
    run_query := fun _ _ => .error e }

/-- A transport that answers every lookup with a fixed response and
fails every other call. -/
def lookupTransport (resp : LookupResponse) : Transport :=
  { commit := fun _ _ => .error (.HttpError "unused"),
    lookup := fun _ _ => .ok resp,
    run_query := fun _ _ => .error (.HttpError "unused") }

/-- A transport that answers every run-query with a fixed response and
fails every other call. -/
def queryTransport (resp : RunQueryResponse) : Transport :=
  { commit := fun _ _ => .error (.HttpError "unused"),
    lookup := fun _ _ => .error (.HttpError "unused"),
    run_query := fun _ _ => .ok resp }

/-- A transport whose every call succeeds with an empty response. -/
def okTransport : Transport :=
  { commit := fun _ _ => .ok { index_updates := none, mutation_results := none },
    lookup := fun _ _ => .ok { found := none, missing := none, deferred := none },
    run_query := fun _ _ => .ok { batch := none, query := none } }

/-- A concrete `EntityKey` dictionary for the spec-modelled values: the
kind is the constant `Widget`; the name is the value's `name` field when
it is a string, else a fixed fallback. -/
def widgetEK : EntityKey AppValue :=
  { entity_kind_key := "Widget",
    entity_name_key := fun v =>
      match v with
      | .vMap fields =>
        match fields.lookup "name" with
        | some (.vStr s) => s
        | _ => "unnamed"
      | _ => "unnamed" }

/-- A concrete supported value used in witnesses: a record with a string
name, an integer count and a floating-point ratio (the IEEE-754 bit
pattern of 2.4). -/
def widgetA : AppValue :=
  .vMap [("name", .vStr "a"), ("count", .vInt 3),
         ("ratio", .vDouble 4612586738352862003)]

/-- A concrete client value used in witnesses. -/
def demoClient : DatastoreClient := { project_id := "demo-project" }

/-! ## Codec round-trip lemmas -/

mutual

/-- Decoding inverts encoding on every supported value. -/
theorem decodeValue_encodeValue (v : AppValue) :
    decodeValue (encodeValue v) = some v := by
  cases v with
  | vNull => simp [encodeValue, decodeValue]
  | vBool b => simp [encodeValue, decodeValue]
  | vInt i => simp [encodeValue, decodeValue]
  | vDouble bits => simp [encodeValue, decodeValue]
  | vStr s => simp [encodeValue, decodeValue]
  | vTime t => simp [encodeValue, decodeValue]
  | vList xs => simp [encodeValue, decodeValue, decodeList_encodeList xs]
  | vMap fs => simp [encodeValue, decodeValue, decodeFields_encodeFields fs]

/-- Decoding inverts encoding element-wise on sequences. -/
theorem decodeList_encodeList (xs : List AppValue) :
    decodeList (encodeList xs) = some xs := by
  cases xs with
  | nil => simp [encodeList, decodeList]
  | cons x xs =>
    simp [encodeList, decodeList, decodeValue_encodeValue x, decodeList_encodeList xs]

/-- Decoding inverts encoding field-wise on records. -/
theorem decodeFields_encodeFields (fs : List (String × AppValue)) :
    decodeFields (encodeFields fs) = some fs := by
  cases fs with
  | nil => simp [encodeFields, decodeFields]
  | cons p fs =>
    cases p with
    | mk k x =>
      simp [encodeFields, decodeFields, decodeValue_encodeValue x,
        decodeFields_encodeFields fs]

end

/-! ## Claim theorems -/

/-- C1: for every supported value `v`, decoding the property bag produced
by encoding `v` (the entity at the root of the encoded wire value) yields
a value equal to `v`. -/
theorem decode_encode_roundtrip (v : AppValue) (ent : DsEntity)
    (h : (to_datastore_value v).bind DsValue.entity_value = some ent) :
    from_datastore_entity ent = some v := by
  cases v with
  | vMap fs =>
    simp [to_datastore_value, encodeValue, DsValue.entity_value] at h
    subst h
    simp [from_datastore_entity, decodeFields_encodeFields fs]
  | vNull => simp [to_datastore_value, encodeValue, DsValue.entity_value] at h
  | vBool b => simp [to_datastore_value, encodeValue, DsValue.entity_value] at h
  | vInt i => simp [to_datastore_value, encodeValue, DsValue.entity_value] at h
  | vDouble bits => simp [to_datastore_value, encodeValue, DsValue.entity_value] at h
  | vStr s => simp [to_datastore_value, encodeValue, DsValue.entity_value] at h
  | vTime t => simp [to_datastore_value, encodeValue, DsValue.entity_value] at h
  | vList xs => simp [to_datastore_value, encodeValue, DsValue.entity_value] at h

/-- C1 witness: the round trip evaluated at a concrete two-field record. -/
theorem decode_encode_roundtrip_witness :
    from_datastore_entity
      (.mk (some [("name", .mk none none none none (some "a") none none none),
                  ("count", .mk none none (some 3) none none none none none),
                  ("ratio", .mk none none none (some 4612586738352862003) none none none none)]) none)
      = some widgetA :=
  decode_encode_roundtrip widgetA _
    (by simp [widgetA, to_datastore_value, encodeValue, encodeFields, DsValue.entity_value])

/-- C2: when a value's encoded form has no map-shaped entity at its root
(the `entity_value`/`properties` chain is empty), each of `insert`,
`upsert` and `update` returns the `Serialization` error and issues no
request to the transport. -/
theorem encode_failure_no_request {T : Type}
    (c : DatastoreClient) (tr : Transport) (ser : SerializeDict T)
    (ek : EntityKey T) (v : T)
    (h : ((ser.to_datastore_value v).bind DsValue.entity_value).bind DsEntity.properties
          = none) :
    c.insert tr ser ek v = (.error (.Serialization "expecting struct/map like input"), [])
    ∧ c.upsert tr ser ek v = (.error (.Serialization "expecting struct/map like input"), [])
    ∧ c.update tr ser ek v = (.error (.Serialization "expecting struct/map like input"), []) := by
  refine ⟨?_, ?_, ?_⟩ <;>
    simp [DatastoreClient.insert, DatastoreClient.upsert, DatastoreClient.update, h]

/-- C2 witness: a bare integer at the top level encodes with no entity at
the root, so `insert` fails locally with `Serialization` and the request
log stays empty. -/
theorem encode_failure_no_request_witness :
    ((appSerialize.to_datastore_value (.vInt 7)).bind DsValue.entity_value).bind
        DsEntity.properties = none
    ∧ demoClient.insert okTransport appSerialize widgetEK (.vInt 7)
        = (.error (.Serialization "expecting struct/map like input"), []) :=
  ⟨by simp [appSerialize, to_datastore_value, encodeValue, DsValue.entity_value],
   (encode_failure_no_request demoClient okTransport appSerialize widgetEK (.vInt 7)
     (by simp [appSerialize, to_datastore_value, encodeValue, DsValue.entity_value])).1⟩

/-- C3: every primitive is a total function into a `Result` (no panic is
representable), and a transport-level error `e` is returned as
`Error.DatabaseResponse e` verbatim by each of the six primitives. -/
theorem transport_error_passthrough {T : Type}
    (c : DatastoreClient) (e : GError) (ser : SerializeDict T)
    (dser : DeserializeDict T) (ek : EntityKey T) (v : T) (name_key : String)
    (p : List (String × DsValue))
    (h : ((ser.to_datastore_value v).bind DsValue.entity_value).bind DsEntity.properties
          = some p) :
    (c.insert (failTransport e) ser ek v).1 = .error (.DatabaseResponse e)
    ∧ (c.upsert (failTransport e) ser ek v).1 = .error (.DatabaseResponse e)
    ∧ (c.update (failTransport e) ser ek v).1 = .error (.DatabaseResponse e)
    ∧ (c.get (failTransport e) dser ek name_key).1 = .error (.DatabaseResponse e)
    ∧ (c.list (failTransport e) dser ek).1 = .error (.DatabaseResponse e)
    ∧ (c.delete (failTransport e) ek name_key).1 = .error (.DatabaseResponse e) := by
  refine ⟨?_, ?_, ?_, ?_, ?_, ?_⟩ <;>
    simp [DatastoreClient.insert, DatastoreClient.upsert, DatastoreClient.update,
      DatastoreClient.get, DatastoreClient.list, DatastoreClient.delete,
      failTransport, h]

/-- C3 witness: a concrete transport failure is wrapped verbatim by
`insert` and `delete` at concrete inputs. -/
theorem transport_error_passthrough_witness :
    (demoClient.insert (failTransport (.HttpError "connection reset")) appSerialize
        widgetEK widgetA).1 = .error (.DatabaseResponse (.HttpError "connection reset"))
    ∧ (demoClient.delete (failTransport (.HttpError "connection reset"))
        (T := AppValue) widgetEK "a").1
        = .error (.DatabaseResponse (.HttpError "connection reset")) := by
  have h := transport_error_passthrough demoClient (.HttpError "connection reset")
    appSerialize appDeserialize widgetEK widgetA "a"
    (encodeFields [("name", .vStr "a"), ("count", .vInt 3),
      ("ratio", .vDouble 4612586738352862003)])
    (by simp [appSerialize, widgetA, to_datastore_value, encodeValue,
      DsValue.entity_value, DsEntity.properties])
  exact ⟨h.1, h.2.2.2.2.2⟩

/-- C4 counterexample: when the transport reports a conflict (the key
already holds a document), `insert` returns the raw transport error
wrapped as `DatabaseResponse` — exactly what the claim says does not
happen; the `Error` type has no `AlreadyExists` constructor, so no such
mapping occurs. -/
theorem insert_conflict_not_mapped :
    (demoClient.insert (failTransport (.Failure 409 "entity already exists"))
        appSerialize widgetEK widgetA).1
      = .error (.DatabaseResponse (.Failure 409 "entity already exists")) := by
  simp [DatastoreClient.insert, failTransport, appSerialize, widgetA,
    to_datastore_value, encodeValue, DsValue.entity_value, DsEntity.properties]

/-- C4 amended: when the transport reports a conflict for an `insert`
(indeed, any transport-level error `e`), `insert` fails with
`Error.DatabaseResponse e`, wrapping the transport error verbatim; no
`AlreadyExists`-class mapping is performed because the error taxonomy has
no such variant. -/
theorem insert_conflict_wrapped_verbatim {T : Type}
    (c : DatastoreClient) (e : GError) (ser : SerializeDict T)
    (ek : EntityKey T) (v : T) (p : List (String × DsValue))
    (h : ((ser.to_datastore_value v).bind DsValue.entity_value).bind DsEntity.properties
          = some p) :
    (c.insert (failTransport e) ser ek v).1 = .error (.DatabaseResponse e) := by
  simp [DatastoreClient.insert, failTransport, h]

/-- C4 amended witness: a concrete conflict-shaped transport error comes
back from `insert` wrapped verbatim. -/
theorem insert_conflict_wrapped_verbatim_witness :
    (demoClient.insert (failTransport (.BadRequest "duplicate key"))
        appSerialize widgetEK widgetA).1
      = .error (.DatabaseResponse (.BadRequest "duplicate key")) :=
  insert_conflict_wrapped_verbatim demoClient (.BadRequest "duplicate key")
    appSerialize widgetEK widgetA
    (encodeFields [("name", .vStr "a"), ("count", .vInt 3),
      ("ratio", .vDouble 4612586738352862003)])
    (by simp [appSerialize, widgetA, to_datastore_value, encodeValue,
      DsValue.entity_value, DsEntity.properties])

/-- C5 counterexample: when the transport reports the conflict for an
`update` of a never-inserted key, `update` returns the raw transport
error wrapped as `DatabaseResponse` — not an error of a `NotFound` class
(the `Error` type has no `NotFound` constructor and `update` performs no
mapping). -/
theorem update_missing_not_mapped :
    (demoClient.update (failTransport (.Failure 400 "no entity to update"))
        appSerialize widgetEK widgetA).1
      = .error (.DatabaseResponse (.Failure 400 "no entity to update")) := by
  simp [DatastoreClient.update, failTransport, appSerialize, widgetA,
    to_datastore_value, encodeValue, DsValue.entity_value, DsEntity.properties]

/-- C5 amended: `update` for a key with no prior document does not
succeed: the transport's conflict error `e` is returned as
`Error.DatabaseResponse e` verbatim; no `NotFound`-class mapping is
performed because the error taxonomy has no such variant. -/
theorem update_missing_wrapped_verbatim {T : Type}
    (c : DatastoreClient) (e : GError) (ser : SerializeDict T)
    (ek : EntityKey T) (v : T) (p : List (String × DsValue))
    (h : ((ser.to_datastore_value v).bind DsValue.entity_value).bind DsEntity.properties
          = some p) :
    (c.update (failTransport e) ser ek v).1 = .error (.DatabaseResponse e) := by
  simp [DatastoreClient.update, failTransport, h]

/-- C5 amended witness: a concrete missing-document transport error comes
back from `update` wrapped verbatim. -/
theorem update_missing_wrapped_verbatim_witness :
    (demoClient.update (failTransport (.BadRequest "entity missing"))
        appSerialize widgetEK widgetA).1
      = .error (.DatabaseResponse (.BadRequest "entity missing")) :=
  update_missing_wrapped_verbatim demoClient (.BadRequest "entity missing")
    appSerialize widgetEK widgetA
    (encodeFields [("name", .vStr "a"), ("count", .vInt 3),
      ("ratio", .vDouble 4612586738352862003)])
    (by simp [appSerialize, widgetA, to_datastore_value, encodeValue,
      DsValue.entity_value, DsEntity.properties])

/-- C6: when the lookup succeeds but the response carries no usable
entity (no `found` list, an empty one, or a first result without an
entity), `get` returns `NoPayload` — never a successful value; when an
entity is found but fails to decode, `get` returns `Deserialization`. -/
theorem get_payload_policy {T : Type}
    (c : DatastoreClient) (dser : DeserializeDict T) (ek : EntityKey T)
    (name_key : String) (resp : LookupResponse) :
    ((resp.found.bind List.head?).bind EntityResult.entity = none →
      (c.get (lookupTransport resp) dser ek name_key).1 = .error .NoPayload)
    ∧ (∀ payload, (resp.found.bind List.head?).bind EntityResult.entity = some payload →
        dser.from_datastore_entity payload = none →
        (c.get (lookupTransport resp) dser ek name_key).1
          = .error (.Deserialization "conversion or parser error")) := by
  constructor
  · intro h
    simp [DatastoreClient.get, lookupTransport, h]
  · intro payload h1 h2
    simp [DatastoreClient.get, lookupTransport, h1, h2]

/-- C6 witness: at a concrete empty lookup response `get` returns
`NoPayload`, and at a concrete response whose entity has no properties
(undecodable) `get` returns `Deserialization`. -/
theorem get_payload_policy_witness :
    (demoClient.get (lookupTransport { found := none, missing := none, deferred := none })
        appDeserialize widgetEK "a").1 = .error .NoPayload
    ∧ (demoClient.get (lookupTransport
          { found := some [{ entity := some (.mk none none), cursor := none, version := none }],
            missing := none, deferred := none })
        appDeserialize widgetEK "a").1
        = .error (.Deserialization "conversion or parser error") :=
  ⟨(get_payload_policy demoClient appDeserialize widgetEK "a"
      { found := none, missing := none, deferred := none }).1 (by simp),
   (get_payload_policy demoClient appDeserialize widgetEK "a"
      { found := some [{ entity := some (.mk none none), cursor := none, version := none }],
        missing := none, deferred := none }).2 (.mk none none) (by simp)
      (by simp [appDeserialize, from_datastore_entity])⟩

/-- C7: for a successful query response, `list` fails with `NoPayload`
when the response has no batch or no entity-results list at all, but when
an entity-results list is present, entities that are absent or fail to
decode are silently filtered out and `list` succeeds with the remaining
decoded values. -/
theorem list_payload_policy {T : Type}
    (c : DatastoreClient) (dser : DeserializeDict T) (ek : EntityKey T)
    (resp : RunQueryResponse) :
    (resp.batch.bind QueryResultBatch.entity_results = none →
      (c.list (queryTransport resp) dser ek).1 = .error .NoPayload)
    ∧ (∀ es, resp.batch.bind QueryResultBatch.entity_results = some es →
      (c.list (queryTransport resp) dser ek).1
        = .ok ((es.filterMap EntityResult.entity).filterMap dser.from_datastore_entity)) := by
  constructor
  · intro h
    simp [DatastoreClient.list, queryTransport, h]
  · intro es h
    simp [DatastoreClient.list, queryTransport, h]

/-- C7 witness: a batchless concrete response yields `NoPayload`, while a
concrete batch holding one decodable entity, one undecodable entity and
one absent entity yields success with only the decoded value. -/
theorem list_payload_policy_witness :
    (demoClient.list (queryTransport { batch := none, query := none })
        appDeserialize widgetEK).1 = .error .NoPayload
    ∧ (demoClient.list (queryTransport
          { batch := some
              { entity_results := some
                  [{ entity := some (.mk (some []) none), cursor := none, version := none },
                   { entity := some (.mk none none), cursor := none, version := none },
                   { entity := none, cursor := none, version := none }],
                more_results := none, end_cursor := none },
            query := none })
        appDeserialize widgetEK).1 = .ok [AppValue.vMap []] := by
  constructor
  · exact (list_payload_policy demoClient appDeserialize widgetEK
      { batch := none, query := none }).1 (by simp)
  · have h := (list_payload_policy demoClient appDeserialize widgetEK
      { batch := some
          { entity_results := some
              [{ entity := some (.mk (some []) none), cursor := none, version := none },
               { entity := some (.mk none none), cursor := none, version := none },
               { entity := none, cursor := none, version := none }],
            more_results := none, end_cursor := none },
        query := none }).2
      [{ entity := some (.mk (some []) none), cursor := none, version := none },
       { entity := some (.mk none none), cursor := none, version := none },
       { entity := none, cursor := none, version := none }] (by simp)
    simpa [appDeserialize, from_datastore_entity, decodeFields,
      EntityResult.entity, List.filterMap] using h

/-- C8: each mutation primitive issues exactly one commit request, whose
mutation list holds exactly one record in which only the field of that
operation is set (the other operation fields and `base_version` are
`none`), with no transaction and mode `NON_TRANSACTIONAL`. -/
theorem mutation_request_shape {T : Type}
    (c : DatastoreClient) (tr : Transport) (ser : SerializeDict T)
    (ek : EntityKey T) (v : T) (name_key : String) (p : List (String × DsValue))
    (h : ((ser.to_datastore_value v).bind DsValue.entity_value).bind DsEntity.properties
          = some p) :
    (∃ ent, (c.insert tr ser ek v).2 = [.commit (singleMutationCommit
      { insert := some ent, delete := none, update := none,
        base_version := none, upsert := none })])
    ∧ (∃ ent, (c.upsert tr ser ek v).2 = [.commit (singleMutationCommit
      { insert := none, delete := none, update := none,
        base_version := none, upsert := some ent })])
    ∧ (∃ ent, (c.update tr ser ek v).2 = [.commit (singleMutationCommit
      { insert := none, delete := none, update := some ent,
        base_version := none, upsert := none })])
    ∧ (∃ k, (c.delete tr ek name_key).2 = [.commit (singleMutationCommit
      { insert := none, delete := some k, update := none,
        base_version := none, upsert := none })]) := by
  refine
    ⟨⟨.mk (some p) (some (keyFor ek.entity_kind_key (ek.entity_name_key v))), ?_⟩,
     ⟨.mk (some p) (some (keyFor ek.entity_kind_key (ek.entity_name_key v))), ?_⟩,
     ⟨.mk (some p) (some (keyFor ek.entity_kind_key (ek.entity_name_key v))), ?_⟩,
     ⟨keyFor ek.entity_kind_key name_key, ?_⟩⟩ <;>
    simp [DatastoreClient.insert, DatastoreClient.upsert, DatastoreClient.update,
      DatastoreClient.delete, singleMutationCommit, keyFor, h]

/-- C8 witness: the commit shape evaluated for `insert` and `delete` at
concrete inputs and an always-succeeding transport. -/
theorem mutation_request_shape_witness :
    (∃ ent, (demoClient.insert okTransport appSerialize widgetEK widgetA).2
      = [.commit (singleMutationCommit
        { insert := some ent, delete := none, update := none,
          base_version := none, upsert := none })])
    ∧ (∃ k, (demoClient.delete okTransport (T := AppValue) widgetEK "a").2
      = [.commit (singleMutationCommit
        { insert := none, delete := some k, update := none,
          base_version := none, upsert := none })]) := by
  have h := mutation_request_shape demoClient okTransport appSerialize widgetEK
    widgetA "a" (encodeFields [("name", .vStr "a"), ("count", .vInt 3),
      ("ratio", .vDouble 4612586738352862003)])
    (by simp [appSerialize, widgetA, to_datastore_value, encodeValue,
      DsValue.entity_value, DsEntity.properties])
  exact ⟨h.1, h.2.2.2⟩

/-- C9: every key built by the primitives is a single-element
(kind, name) path: for `insert`/`upsert`/`update` the kind is the
type-level `entity_kind_key` and the name is the instance's
`entity_name_key`; for `get`/`delete` the name is the caller-supplied
one.  (`list` builds no key; it queries by kind only.) -/
theorem key_construction {T : Type}
    (c : DatastoreClient) (tr : Transport) (ser : SerializeDict T)
    (dser : DeserializeDict T) (ek : EntityKey T) (v : T) (name_key : String)
    (p : List (String × DsValue))
    (h : ((ser.to_datastore_value v).bind DsValue.entity_value).bind DsEntity.properties
          = some p) :
    (c.insert tr ser ek v).2 = [.commit (singleMutationCommit
      { insert := some (.mk (some p)
          (some (keyFor ek.entity_kind_key (ek.entity_name_key v)))),
        delete := none, update := none, base_version := none, upsert := none })]
    ∧ (c.upsert tr ser ek v).2 = [.commit (singleMutationCommit
      { insert := none, delete := none, update := none, base_version := none,
        upsert := some (.mk (some p)
          (some (keyFor ek.entity_kind_key (ek.entity_name_key v)))) })]
    ∧ (c.update tr ser ek v).2 = [.commit (singleMutationCommit
      { insert := none, delete := none,
        update := some (.mk (some p)
          (some (keyFor ek.entity_kind_key (ek.entity_name_key v)))),
        base_version := none, upsert := none })]
    ∧ (c.get tr dser ek name_key).2 = [.lookup
      { keys := some [keyFor ek.entity_kind_key name_key], read_options := none }]
    ∧ (c.delete tr ek name_key).2 = [.commit (singleMutationCommit
      { insert := none, delete := some (keyFor ek.entity_kind_key name_key),
        update := none, base_version := none, upsert := none })] := by
  refine ⟨?_, ?_, ?_, ?_, ?_⟩ <;>
    simp [DatastoreClient.insert, DatastoreClient.upsert, DatastoreClient.update,
      DatastoreClient.get, DatastoreClient.delete, singleMutationCommit, keyFor, h]

/-- C9 witness: the key construction evaluated at concrete inputs, for
`insert` (instance-derived name) and `get` (caller-supplied name). -/
theorem key_construction_witness :
    (demoClient.insert okTransport appSerialize widgetEK widgetA).2
      = [.commit (singleMutationCommit
        { insert := some (.mk
            (some (encodeFields [("name", .vStr "a"), ("count", .vInt 3),
      ("ratio", .vDouble 4612586738352862003)]))
            (some (keyFor "Widget" "a"))),
          delete := none, update := none, base_version := none, upsert := none })]
    ∧ (demoClient.get okTransport appDeserialize widgetEK "b").2
      = [.lookup { keys := some [keyFor "Widget" "b"], read_options := none }] := by
  have h := key_construction demoClient okTransport appSerialize appDeserialize
    widgetEK widgetA "b" (encodeFields [("name", .vStr "a"), ("count", .vInt 3),
      ("ratio", .vDouble 4612586738352862003)])
    (by simp [appSerialize, widgetA, to_datastore_value, encodeValue,
      DsValue.entity_value, DsEntity.properties])
  refine ⟨?_, h.2.2.2.1⟩
  have h1 := h.1
  simpa [widgetEK, widgetA] using h1

/-- C10: `get` decodes only the first entity of the response's `found`
list: its entire observable behaviour is unchanged by whatever follows
the first entry (and by the `missing`/`deferred` fields). -/
theorem get_uses_only_first_found {T : Type}
    (c : DatastoreClient) (dser : DeserializeDict T) (ek : EntityKey T)
    (name_key : String) (er : EntityResult) (rest rest' : List EntityResult)
    (m m' : Option (List EntityResult)) (d d' : Option (List DsKey)) :
    c.get (lookupTransport { found := some (er :: rest), missing := m, deferred := d })
        dser ek name_key
      = c.get (lookupTransport { found := some (er :: rest'), missing := m', deferred := d' })
        dser ek name_key := by
  simp [DatastoreClient.get, lookupTransport]

end Ddb
